import Mathlib

/-!
# LuxHub edge functions: a shallow embedding

Lean embedding of the serverless handlers of the LuxHub retail dashboard
(Supabase edge functions under `supabase/functions/`), together with proofs
of the behavioural properties claimed by the natural-language specification.

Conventions of the embedding:
* database tables are Lean lists of row structures, queries are list
  operations on them;
* JS `Date` values are UTC milliseconds, decomposed where the code needs
  calendar fields;
* monetary amounts (Postgres `numeric`, JS `number`) are modelled as exact
  integers: none of the verified properties depend on fractional values,
  and floating point is out of scope;
* effects (HTTP status, rows written, notifications inserted, outbound
  calls) are returned explicitly by each handler function.
-/

namespace LuxHub

/-! ## Time model

JS `Date` is a number of milliseconds since the Unix epoch.  The
sales-summary handler additionally reads `getDay()` (day of week, 0 =
Sunday) and constructs the first day of the current month, so the model
keeps the epoch-day / ms-of-day decomposition and carries the 1-based day
of the month, which the millisecond value alone cannot recover without a
full calendar.  1970-01-01 was a Thursday, hence `getDay`. -/

def msPerDay : Int := 86400000

structure DateTime where
  daysSinceEpoch : Int
  msOfDay : Int
  dayOfMonth : Int
  deriving Repr, DecidableEq

def DateTime.toMillis (d : DateTime) : Int :=
  d.daysSinceEpoch * msPerDay + d.msOfDay

/-- JS `Date.prototype.getDay`: 0 = Sunday, ..., 6 = Saturday. -/
def DateTime.getDay (d : DateTime) : Int :=
  (d.daysSinceEpoch + 4) % 7

/-- A `DateTime` is well formed when its time-of-day lies inside the day
and its day-of-month is 1-based. -/
def DateTime.WF (d : DateTime) : Prop :=
  0 ≤ d.msOfDay ∧ d.msOfDay < msPerDay ∧ 1 ≤ d.dayOfMonth

instance (d : DateTime) : Decidable d.WF := by
  unfold DateTime.WF; infer_instance

/-! ## Sales summary (`sales-summary` handler)

Embeds the `startDate` switch and the totals computation of the
sales-summary serve handler (the handler validates
`period ∈ {day, week, month}` first, so the `Period` type carries exactly
the valid values and the unreachable `default` branch of the switch is not
represented). -/

inductive Period
  | day
  | week
  | month
  deriving Repr, DecidableEq

/-- Start boundary of the reporting window, in epoch milliseconds, from
the `switch (period)` of the sales-summary handler:
`day` zeroes the time of day, `week` additionally steps back `getDay()`
days (most recent Sunday), `month` rewinds to the first of the current
month at midnight. -/
def startMillis (p : Period) (now : DateTime) : Int :=
  match p with
  | .day => now.daysSinceEpoch * msPerDay
  | .week => (now.daysSinceEpoch - now.getDay) * msPerDay
  | .month => (now.daysSinceEpoch - (now.dayOfMonth - 1)) * msPerDay

/-- A row of `shopify_orders` / `spy_orders` as selected by the
sales-summary handler (`total_amount, created_at`); `total_amount` is a
nullable `numeric` column. -/
structure OrderRow where
  total_amount : Option Int
  created_at : Int
  deriving Repr, DecidableEq

/-- `Number(order.total_amount) || 0`: a null amount contributes zero. -/
def amountOrZero (r : OrderRow) : Int :=
  r.total_amount.getD 0

/-- `rows.reduce((sum, order) => sum + (Number(order.total_amount) || 0), 0)`. -/
def reduceTotal (rows : List OrderRow) : Int :=
  rows.foldl (fun s r => s + amountOrZero r) 0

structure SourceSummary where
  total : Int
  orderCount : Nat
  deriving Repr, DecidableEq

structure SalesSummary where
  shopify : SourceSummary
  spy : SourceSummary
  combined : SourceSummary
  deriving Repr, DecidableEq

/-- The `summary` object built by the sales-summary handler from the two
range-filtered query results. -/
def salesSummary (shopifyOrders spyOrders : List OrderRow) : SalesSummary :=
  let shopifyTotal := reduceTotal shopifyOrders
  let spyTotal := reduceTotal spyOrders
  { shopify := { total := shopifyTotal, orderCount := shopifyOrders.length }
    spy := { total := spyTotal, orderCount := spyOrders.length }
    combined := { total := shopifyTotal + spyTotal,
                  orderCount := shopifyOrders.length + spyOrders.length } }

/-! ## Inventory ranking (`inventory-top20` handler) and the assistant
function `getInventory` (`ai-ask` handler)

Both handlers run the same query (`inventory_snapshots` joined with
`products`, ordered by `taken_at` descending) and the same client-side
grouping loop: a `Map` keyed by product id in which the first row seen for
a product wins.  `inventory-top20` then sorts ascending by stock level and
truncates to 20; `getInventory` optionally keeps only low-stock items. -/

/-- One joined row of the snapshot query, with the nested `products`
record flattened. -/
structure Snapshot where
  product_id : Int
  sku : String
  name : String
  stock_level : Int
  min_stock : Int
  taken_at : Int
  deriving Repr, DecidableEq

/-- The per-product record both handlers build from a snapshot row. -/
structure InvItem where
  product_id : Int
  sku : String
  name : String
  stock_level : Int
  min_stock : Int
  last_updated : Int
  is_low_stock : Bool
  deriving Repr, DecidableEq

/-- The object literal stored into `latestByProduct`;
`is_low_stock := stock_level < min_stock` (strict). -/
def mkItem (s : Snapshot) : InvItem :=
  { product_id := s.product_id
    sku := s.sku
    name := s.name
    stock_level := s.stock_level
    min_stock := s.min_stock
    last_updated := s.taken_at
    is_low_stock := decide (s.stock_level < s.min_stock) }

/-- The `forEach` grouping loop of `inventory-top20`: `seen` is the key
set of the `Map`; a row whose product id was already seen is skipped,
otherwise its record is appended (preserving `Map` insertion order). -/
def groupLatest (seen : List Int) : List Snapshot → List InvItem
  | [] => []
  | s :: rest =>
    if s.product_id ∈ seen then groupLatest seen rest
    else mkItem s :: groupLatest (s.product_id :: seen) rest

/-- The comparator `(a, b) => a.stock_level - b.stock_level`
(ascending by stock level). -/
def stockLE (a b : InvItem) : Prop := a.stock_level ≤ b.stock_level

instance : DecidableRel stockLE := fun a b => by
  unfold stockLE; infer_instance

instance : IsTotal InvItem stockLE :=
  ⟨fun a b => le_total a.stock_level b.stock_level⟩

instance : IsTrans InvItem stockLE :=
  ⟨fun _ _ _ h1 h2 => le_trans h1 h2⟩

/-- `Array.from(latestByProduct.values()).sort(...).slice(0, 20)`:
a stable sort ascending by stock level, truncated to 20 entries. -/
def inventoryTop20 (rows : List Snapshot) : List InvItem :=
  (List.insertionSort stockLE (groupLatest [] rows)).take 20

/-- The JSON body returned by `inventory-top20`. -/
structure InvResponse where
  items : List InvItem
  total_items : Nat
  low_stock_count : Nat
  deriving Repr, DecidableEq

def inventoryResponse (rows : List Snapshot) : InvResponse :=
  let inventory := inventoryTop20 rows
  { items := inventory
    total_items := inventory.length
    low_stock_count := (inventory.filter (fun i => i.is_low_stock)).length }

/-- The grouping loop of the assistant function `getInventory`
(`low_stock_only` flag): a record failing the low-stock filter is not
inserted into the `Map`, so its product id stays unseen. -/
def getInventoryLoop (lso : Bool) (seen : List Int) : List Snapshot → List InvItem
  | [] => []
  | s :: rest =>
    if s.product_id ∈ seen then getInventoryLoop lso seen rest
    else
      let item := mkItem s
      if !lso || item.is_low_stock then
        item :: getInventoryLoop lso (s.product_id :: seen) rest
      else
        getInventoryLoop lso seen rest

/-- `getInventory` of the `ai-ask` handler on the rows returned by its
snapshot query. -/
def getInventory (lso : Bool) (rows : List Snapshot) : List InvItem :=
  getInventoryLoop lso [] rows

/-! ## Webhook ingestion (`shopify-webhook` handler)

The handler reads the raw body, verifies an HMAC-SHA256 signature against
the shared secret from the environment, then upserts the parsed order
keyed on the platform order id (`onConflict: id`) and, for create events,
inserts a notification.  The HMAC function and the JSON parser are
parameters of the embedding; the handler only compares / pattern-matches
their results. -/

/-- The payload fields the webhook handler reads from the parsed body.
`total_price` is held already parsed (`parseFloat(total_price || "0")`
is modelled by `Option.getD 0`), amounts as exact integers. -/
structure OrderPayload where
  id : Int
  created_at : String
  total_price : Option Int
  fulfillment_status : Option String
  customer_email : Option String
  order_number : Int
  currency : String
  deriving Repr, DecidableEq

/-- A row of the `shopify_orders` table (`id` is the primary key). -/
structure ShopifyOrderRow where
  id : Int
  created_at : String
  total_amount : Int
  status : String
  customer_email : Option String
  json : OrderPayload
  deriving Repr, DecidableEq

/-- The row the webhook handler builds from a payload. -/
def rowOfPayload (p : OrderPayload) : ShopifyOrderRow :=
  { id := p.id
    created_at := p.created_at
    total_amount := p.total_price.getD 0
    status := p.fulfillment_status.getD "pending"
    customer_email := p.customer_email
    json := p }

/-- `upsert(..., { onConflict: id })`: replace the row with the same id
if one exists, otherwise insert. -/
def upsertOrder (table : List ShopifyOrderRow) (r : ShopifyOrderRow) :
    List ShopifyOrderRow :=
  if table.any (fun x => decide (x.id = r.id)) then
    table.map (fun x => if x.id = r.id then r else x)
  else table ++ [r]

/-- A row of the `notifications` table (the fields the handlers insert). -/
structure Notification where
  title : String
  body : String
  type : String
  deriving Repr, DecidableEq

/-- The notification inserted for `orders/create` events. -/
def newOrderNotification (p : OrderPayload) : Notification :=
  { title := "New Shopify Order"
    body := "Order #" ++ toString p.order_number ++ " for " ++
      toString (p.total_price.getD 0) ++ " " ++ p.currency
    type := "info" }

structure WebhookReq where
  body : String
  hmacHeader : Option String
  topic : Option String
  deriving Repr, DecidableEq

/-- The datastore as the webhook handler can change it. -/
structure WebhookState where
  shopify_orders : List ShopifyOrderRow
  notifications : List Notification
  deriving Repr, DecidableEq

structure WebhookResult where
  status : Nat
  state : WebhookState
  deriving Repr, DecidableEq

/-- The `shopify-webhook` serve handler.  `hmac secret body` stands for
the base64 HMAC-SHA256 digest; a missing or empty secret or header is
rejected first (JS falsiness), then a digest mismatch; an unparseable
body throws into the catch-all 500.  Only create/update topics write. -/
def handleWebhook (hmac : String → String → String)
    (parsePayload : String → Option OrderPayload)
    (webhookSecret : Option String) (req : WebhookReq)
    (st : WebhookState) : WebhookResult :=
  match webhookSecret, req.hmacHeader with
  | some sec, some header =>
    if sec = "" ∨ header = "" then ⟨401, st⟩
    else if hmac sec req.body ≠ header then ⟨401, st⟩
    else
      match parsePayload req.body with
      | none => ⟨500, st⟩
      | some orderData =>
        if req.topic = some "orders/create" ∨ req.topic = some "orders/updated" then
          ⟨200,
            { shopify_orders := upsertOrder st.shopify_orders (rowOfPayload orderData)
              notifications :=
                if req.topic = some "orders/create" then
                  st.notifications ++ [newOrderNotification orderData]
                else st.notifications }⟩
        else ⟨200, st⟩
  | _, _ => ⟨401, st⟩

/-! ## Third-party sync jobs and admin dispatcher

`spy-sync-orders` and `spy-sync-inventory` share a verbatim credential
preamble: read `SPY_TOKEN` / `SPY_API_URL` from the `secrets` table, fail
with a 400 if either is missing, then fail with a 400 if the token row
has an `expires_at` strictly before now; only then is the third-party API
called.  The admin dispatcher sub-operation `test_connection` selects only
`key, value` (no `expires_at`) and checks mere presence before calling
the API. -/

/-- A row of the `secrets` table as selected by the sync handlers. -/
structure Secret where
  key : String
  value : String
  expires_at : Option Int
  deriving Repr, DecidableEq

/-- `new Map(secrets.map(s => [s.key, s.value])).get(k)`: with duplicate
keys the last entry would win (the `key` column is unique, so at most one
row matches in practice). -/
def mapGet (secrets : List Secret) (k : String) : Option String :=
  ((secrets.filter (fun s => decide (s.key = k))).getLast?).map (fun s => s.value)

/-- `secrets.find(s => s.key === k)`: first matching row. -/
def findSecret (secrets : List Secret) (k : String) : Option Secret :=
  secrets.find? (fun s => decide (s.key = k))

/-- Outcome of the credential preamble of a sync run. -/
inductive SyncGate
  | missingCreds
  | expired
  | proceed (token apiUrl : String)
  deriving Repr, DecidableEq

/-- Credential preamble shared verbatim by `spy-sync-orders` and
`spy-sync-inventory`: missing or empty token/url give the 400
"credentials not found" return; a token row whose `expires_at` is
strictly before `now` gives the 400 "token expired" return; otherwise
the run proceeds to the third-party fetch. -/
def spySyncGate (secrets : List Secret) (now : Int) : SyncGate :=
  match mapGet secrets "SPY_TOKEN", mapGet secrets "SPY_API_URL" with
  | some token, some apiUrl =>
    if token = "" ∨ apiUrl = "" then .missingCreds
    else
      match findSecret secrets "SPY_TOKEN" with
      | some ts =>
        match ts.expires_at with
        | some e => if e < now then .expired else .proceed token apiUrl
        | none => .proceed token apiUrl
      | none => .proceed token apiUrl
  | _, _ => .missingCreds

/-- Does the sync run reach the third-party API call? -/
def spySyncCallsApi (secrets : List Secret) (now : Int) : Bool :=
  match spySyncGate secrets now with
  | .proceed _ _ => true
  | _ => false

/-- The early client-error status of a sync run (`none` when the run
proceeds past the credential checks). -/
def spySyncEarlyStatus (secrets : List Secret) (now : Int) : Option Nat :=
  match spySyncGate secrets now with
  | .missingCreds => some 400
  | .expired => some 400
  | .proceed _ _ => none

/-- Outcome of the credential check of the `test_connection`
sub-operation of the admin dispatcher. -/
inductive TestGate
  | missingCreds
  | proceed (token apiUrl : String)
  deriving Repr, DecidableEq

/-- The `test_connection` case of the admin action dispatcher: it selects
only `key, value` from `secrets` and checks presence of token and url;
there is no expiry check before the API call. -/
def testConnectionGate (secrets : List Secret) : TestGate :=
  match mapGet secrets "SPY_TOKEN", mapGet secrets "SPY_API_URL" with
  | some token, some apiUrl =>
    if token = "" ∨ apiUrl = "" then .missingCreds
    else .proceed token apiUrl
  | _, _ => .missingCreds

/-- Does `test_connection` reach the third-party API call? -/
def testConnectionCallsApi (secrets : List Secret) : Bool :=
  match testConnectionGate secrets with
  | .proceed _ _ => true
  | _ => false

/-! ### The per-record upsert loop of `spy-sync-orders` -/

/-- An order fetched from the third-party API (the fields the loop uses). -/
structure SpyOrder where
  order_number : String
  created_at : String
  total_amount : Int
  deriving Repr, DecidableEq

/-- Counters and error list accumulated by the sync loop. -/
structure SyncTally where
  syncedCount : Nat
  errorCount : Nat
  errors : List String
  deriving Repr, DecidableEq

/-- One iteration of the orders loop.  `outcome o` is the per-record
upsert result: `none` on success, `some msg` when the upsert returns an
error or throws; failures are collected and the loop continues. -/
def syncStep (outcome : SpyOrder → Option String) (t : SyncTally) (o : SpyOrder) :
    SyncTally :=
  match outcome o with
  | none => { t with syncedCount := t.syncedCount + 1 }
  | some msg =>
      { t with
        errorCount := t.errorCount + 1
        errors := t.errors ++ ["Order " ++ o.order_number ++ ": " ++ msg] }

/-- The whole `for (const order of orders)` loop of `spy-sync-orders`. -/
def runOrdersSync (outcome : SpyOrder → Option String) (orders : List SpyOrder) :
    SyncTally :=
  orders.foldl (syncStep outcome) ⟨0, 0, []⟩

/-- Type of the summary notification created after the loop:
`errorCount > 0 ? "warning" : "success"`. -/
def syncNotificationType (t : SyncTally) : String :=
  if t.errorCount > 0 then "warning" else "success"

/-- The JSON response of `spy-sync-orders`: counters plus
`errors.slice(0, 10)`. -/
structure OrdersSyncResponse where
  synced_count : Nat
  error_count : Nat
  errors : List String
  deriving Repr, DecidableEq

def ordersSyncResponse (t : SyncTally) : OrdersSyncResponse :=
  { synced_count := t.syncedCount
    error_count := t.errorCount
    errors := t.errors.take 10 }

/-! ### Concrete scenario inputs from the specification -/

/-- Three fetched orders for the partial-failure scenario. -/
def threeOrders : List SpyOrder :=
  [⟨"SPY-1", "t1", 10⟩, ⟨"SPY-2", "t2", 20⟩, ⟨"SPY-3", "t3", 30⟩]

/-- Per-record outcome in which exactly the second fetched order fails
to upsert. -/
def failSecondOutcome : SpyOrder → Option String :=
  fun o => if o.order_number = "SPY-2" then some "duplicate key" else none

/-- A secrets table holding a SPY token that expired at time 100 together
with the API url. -/
def expiredSecrets : List Secret :=
  [⟨"SPY_TOKEN", "tok", some 100⟩, ⟨"SPY_API_URL", "https://spy.example", none⟩]

/-! ## Assistant orchestration (`ai-ask` handler)

The handler rejects a falsy `query` field with a 400 before any model or
datastore call.  Otherwise it makes a first chat-completion call; if the
model elects a function call it parses the argument JSON (a parse failure
throws into the 500 catch), dispatches on the function name over the
locally implemented functions, feeds the result (which stays `undefined`
for an unrecognized name) into a second model call, and returns the
answer with one citation `{source, data}`.  The model responses, the JSON
parser and the local function runner (where all datastore reads happen)
are parameters of the embedding. -/

/-- The locally dispatchable data-retrieval functions (the four-function
variant; the two-function variant dispatches the first two names the same
way). -/
inductive LocalFn
  | getSalesFn
  | getInventoryFn
  | getOrderStatusFn
  | getProductSearchFn
  deriving Repr, DecidableEq

/-- The first chat completion message: plain content or a function call. -/
inductive ModelMsg
  | plain (content : Option String)
  | fnCall (name : String) (args : String)
  deriving Repr, DecidableEq

/-- The `if / else if` dispatch on `functionCall.name`. -/
def dispatchName (n : String) : Option LocalFn :=
  if n = "getSales" then some .getSalesFn
  else if n = "getInventory" then some .getInventoryFn
  else if n = "getOrderStatus" then some .getOrderStatusFn
  else if n = "getProductSearch" then some .getProductSearchFn
  else none

/-- One citation entry; `data = none` models an `undefined`
`functionResult`, which `JSON.stringify` serialises as an absent key. -/
structure Citation where
  source : String
  data : Option String
  deriving Repr, DecidableEq

/-- Observable outcome of one `ai-ask` request.  `executedFns` lists the
local functions actually run (every datastore read of the handler happens
inside them); `llmCalls` counts chat-completion requests. -/
structure AskResponse where
  status : Nat
  answer : Option String
  citations : List Citation
  executedFns : List LocalFn
  llmCalls : Nat
  deriving Repr, DecidableEq

/-- `!query` (missing or empty query string). -/
def queryFalsy : Option String → Bool
  | none => true
  | some s => decide (s = "")

/-- The `ai-ask` serve handler. -/
def handleAsk (parseArgs : String → Option String)
    (runFn : LocalFn → String → String)
    (firstMsg : ModelMsg) (secondAnswer : Option String)
    (query : Option String) : AskResponse :=
  if queryFalsy query then
    { status := 400, answer := none, citations := [], executedFns := [], llmCalls := 0 }
  else
    match firstMsg with
    | .plain c =>
        { status := 200, answer := c, citations := [], executedFns := [], llmCalls := 1 }
    | .fnCall name args =>
        match parseArgs args with
        | none =>
            { status := 500, answer := none, citations := [], executedFns := [],
              llmCalls := 1 }
        | some a =>
            match dispatchName name with
            | some fn =>
                { status := 200, answer := secondAnswer
                  citations := [{ source := name, data := some (runFn fn a) }]
                  executedFns := [fn], llmCalls := 2 }
            | none =>
                { status := 200, answer := secondAnswer
                  citations := [{ source := name, data := none }]
                  executedFns := [], llmCalls := 2 }

/-! ## Proofs

### Sales summary lemmas -/

theorem reduceTotal_go (rows : List OrderRow) (a : Int) :
    rows.foldl (fun s r => s + amountOrZero r) a = a + (rows.map amountOrZero).sum := by
  induction rows generalizing a with
  | nil => simp
  | cons r rest ih =>
      simp [List.foldl_cons, ih, add_assoc]

theorem reduceTotal_eq_sum (rows : List OrderRow) :
    reduceTotal rows = (rows.map amountOrZero).sum := by
  simpa using reduceTotal_go rows 0

theorem startMillis_le (p : Period) (now : DateTime)
    (hms : 0 ≤ now.msOfDay) (hdom : 1 ≤ now.dayOfMonth) :
    startMillis p now ≤ now.toMillis := by
  have hday : now.daysSinceEpoch * msPerDay ≤ now.toMillis := by
    unfold DateTime.toMillis; omega
  cases p with
  | day => simpa [startMillis] using hday
  | week =>
      have hdow : 0 ≤ now.getDay := by
        unfold DateTime.getDay
        exact Int.emod_nonneg _ (by norm_num)
      have h1 : (now.daysSinceEpoch - now.getDay) * msPerDay ≤
          now.daysSinceEpoch * msPerDay := by
        apply mul_le_mul_of_nonneg_right _ (by norm_num [msPerDay])
        omega
      exact le_trans (by simpa [startMillis] using h1) hday
  | month =>
      have h1 : (now.daysSinceEpoch - (now.dayOfMonth - 1)) * msPerDay ≤
          now.daysSinceEpoch * msPerDay := by
        apply mul_le_mul_of_nonneg_right _ (by norm_num [msPerDay])
        omega
      exact le_trans (by simpa [startMillis] using h1) hday

/-! ### Lemmas about the grouping loops -/

theorem mem_groupLatest {item : InvItem} :
    ∀ (rows : List Snapshot) (seen : List Int),
      item ∈ groupLatest seen rows → ∃ s ∈ rows, item = mkItem s := by
  intro rows
  induction rows with
  | nil => intro seen h; simp [groupLatest] at h
  | cons s rest ih =>
      intro seen h
      by_cases hs : s.product_id ∈ seen
      · simp only [groupLatest, if_pos hs] at h
        obtain ⟨t, ht, rfl⟩ := ih seen h
        exact ⟨t, List.mem_cons_of_mem _ ht, rfl⟩
      · simp only [groupLatest, if_neg hs, List.mem_cons] at h
        rcases h with h | h
        · exact ⟨s, List.mem_cons_self _ _, h⟩
        · obtain ⟨t, ht, rfl⟩ := ih _ h
          exact ⟨t, List.mem_cons_of_mem _ ht, rfl⟩

theorem mem_getInventoryLoop {lso : Bool} {item : InvItem} :
    ∀ (rows : List Snapshot) (seen : List Int),
      item ∈ getInventoryLoop lso seen rows → ∃ s ∈ rows, item = mkItem s := by
  intro rows
  induction rows with
  | nil => intro seen h; simp [getInventoryLoop] at h
  | cons s rest ih =>
      intro seen h
      by_cases hs : s.product_id ∈ seen
      · simp only [getInventoryLoop, if_pos hs] at h
        obtain ⟨t, ht, rfl⟩ := ih seen h
        exact ⟨t, List.mem_cons_of_mem _ ht, rfl⟩
      · by_cases hk : (!lso || (mkItem s).is_low_stock) = true
        · simp only [getInventoryLoop, if_neg hs, if_pos hk, List.mem_cons] at h
          rcases h with h | h
          · exact ⟨s, List.mem_cons_self _ _, h⟩
          · obtain ⟨t, ht, rfl⟩ := ih _ h
            exact ⟨t, List.mem_cons_of_mem _ ht, rfl⟩
        · simp only [getInventoryLoop, if_neg hs, if_neg hk] at h
          obtain ⟨t, ht, rfl⟩ := ih _ h
          exact ⟨t, List.mem_cons_of_mem _ ht, rfl⟩

theorem mkItem_low_iff (s : Snapshot) :
    (mkItem s).is_low_stock = true ↔ (mkItem s).stock_level < (mkItem s).min_stock := by
  simp [mkItem]

theorem mem_inventoryTop20 {item : InvItem} {rows : List Snapshot}
    (h : item ∈ inventoryTop20 rows) : ∃ s ∈ rows, item = mkItem s := by
  have h1 : item ∈ List.insertionSort stockLE (groupLatest [] rows) :=
    List.mem_of_mem_take h
  have h2 : item ∈ groupLatest ([] : List Int) rows :=
    (List.perm_insertionSort stockLE _).mem_iff.mp h1
  exact mem_groupLatest rows [] h2

/-- `groupLatest` keeps, for each product id, exactly the first matching
row of the input: filtering its output by a product id yields the record
of the head of the correspondingly filtered input. -/
theorem groupLatest_filter :
    ∀ (rows : List Snapshot) (seen : List Int) (pid : Int),
      (groupLatest seen rows).filter (fun i => decide (i.product_id = pid)) =
        (if pid ∈ seen then []
         else (((rows.filter (fun s => decide (s.product_id = pid))).head?).map mkItem).toList) := by
  intro rows
  induction rows with
  | nil => intro seen pid; by_cases h : pid ∈ seen <;> simp [groupLatest, h]
  | cons s rest ih =>
      intro seen pid
      by_cases hs : s.product_id ∈ seen
      · rw [groupLatest, if_pos hs, ih]
        by_cases hp : pid ∈ seen
        · simp [hp]
        · have hne : ¬ s.product_id = pid := fun he => hp (he ▸ hs)
          simp [hp, List.filter_cons, hne]
      · rw [groupLatest, if_neg hs]
        by_cases he : s.product_id = pid
        · subst he
          have hp : ¬ s.product_id ∈ seen := hs
          rw [List.filter_cons_of_pos (by simp [mkItem]), ih]
          simp [hp, List.filter_cons]
        · rw [List.filter_cons_of_neg (by simp [mkItem, he]), ih]
          by_cases hp : pid ∈ seen
          · simp [hp, he, List.mem_cons]
          · simp only [hp, he, List.mem_cons, List.filter_cons, if_neg,
              decide_eq_true_eq, or_false, if_false]
            rw [if_neg (fun hcontra => absurd hcontra.symm he)]

theorem mem_getInventory {item : InvItem} {lso : Bool} {rows : List Snapshot}
    (h : item ∈ getInventory lso rows) : ∃ s ∈ rows, item = mkItem s :=
  mem_getInventoryLoop rows [] h

theorem mem_inventoryResponse_items {item : InvItem} {rows : List Snapshot}
    (h : item ∈ (inventoryResponse rows).items) : ∃ s ∈ rows, item = mkItem s :=
  mem_inventoryTop20 h

/-! ### Claim theorems -/

/-- Claim C3: for every valid period value in day, week, month, the
sales-summary start boundary is at or before the current server time and
is a midnight (a whole-day multiple); the week boundary is a Sunday no
more than seven days back; each reported source total is the sum of
`total_amount` over the rows returned for that source, the combined total
is the Shopify total plus the SPY total, and the combined order count is
the sum of the two row counts. -/
theorem salesSummary_boundary_and_totals (p : Period) (now : DateTime)
    (shopifyRows spyRows : List OrderRow)
    (hms : 0 ≤ now.msOfDay) (hms2 : now.msOfDay < msPerDay)
    (hdom : 1 ≤ now.dayOfMonth) :
    startMillis p now ≤ now.toMillis ∧
    startMillis p now % msPerDay = 0 ∧
    (startMillis Period.week now / msPerDay + 4) % 7 = 0 ∧
    now.toMillis - startMillis Period.week now < 7 * msPerDay ∧
    (salesSummary shopifyRows spyRows).shopify.total = (shopifyRows.map amountOrZero).sum ∧
    (salesSummary shopifyRows spyRows).spy.total = (spyRows.map amountOrZero).sum ∧
    (salesSummary shopifyRows spyRows).combined.total =
      (salesSummary shopifyRows spyRows).shopify.total +
        (salesSummary shopifyRows spyRows).spy.total ∧
    (salesSummary shopifyRows spyRows).shopify.orderCount = shopifyRows.length ∧
    (salesSummary shopifyRows spyRows).spy.orderCount = spyRows.length ∧
    (salesSummary shopifyRows spyRows).combined.orderCount =
      (salesSummary shopifyRows spyRows).shopify.orderCount +
        (salesSummary shopifyRows spyRows).spy.orderCount := by
  refine ⟨startMillis_le p now hms hdom, ?_, ?_, ?_, ?_, ?_, ?_, ?_, ?_, ?_⟩
  · cases p <;> simp [startMillis, Int.mul_emod_left]
  · have h7 : (0 : Int) < 7 := by norm_num
    simp only [startMillis, DateTime.getDay, msPerDay]
    rw [Int.mul_ediv_cancel _ (by norm_num)]
    omega
  · have hdow1 : now.getDay < 7 := by
      unfold DateTime.getDay
      exact Int.emod_lt_of_pos _ (by norm_num)
    have hdow0 : 0 ≤ now.getDay := by
      unfold DateTime.getDay
      exact Int.emod_nonneg _ (by norm_num)
    simp only [startMillis, DateTime.toMillis, msPerDay] at *
    nlinarith
  all_goals simp [salesSummary, reduceTotal_eq_sum]

/-- Witness for C3 at a concrete date and concrete row lists. -/
theorem salesSummary_boundary_and_totals_witness :
    (0 ≤ (⟨20000, 3600000, 15⟩ : DateTime).msOfDay ∧
      (⟨20000, 3600000, 15⟩ : DateTime).msOfDay < msPerDay ∧
      1 ≤ (⟨20000, 3600000, 15⟩ : DateTime).dayOfMonth) ∧
    (startMillis Period.week ⟨20000, 3600000, 15⟩ ≤
        (⟨20000, 3600000, 15⟩ : DateTime).toMillis ∧
      startMillis Period.week ⟨20000, 3600000, 15⟩ % msPerDay = 0 ∧
      (startMillis Period.week ⟨20000, 3600000, 15⟩ / msPerDay + 4) % 7 = 0 ∧
      (⟨20000, 3600000, 15⟩ : DateTime).toMillis -
          startMillis Period.week ⟨20000, 3600000, 15⟩ < 7 * msPerDay ∧
      (salesSummary [⟨some 5, 1⟩, ⟨none, 2⟩] [⟨some 7, 3⟩]).shopify.total =
        (([⟨some 5, 1⟩, ⟨none, 2⟩] : List OrderRow).map amountOrZero).sum ∧
      (salesSummary [⟨some 5, 1⟩, ⟨none, 2⟩] [⟨some 7, 3⟩]).spy.total =
        (([⟨some 7, 3⟩] : List OrderRow).map amountOrZero).sum ∧
      (salesSummary [⟨some 5, 1⟩, ⟨none, 2⟩] [⟨some 7, 3⟩]).combined.total =
        (salesSummary [⟨some 5, 1⟩, ⟨none, 2⟩] [⟨some 7, 3⟩]).shopify.total +
          (salesSummary [⟨some 5, 1⟩, ⟨none, 2⟩] [⟨some 7, 3⟩]).spy.total ∧
      (salesSummary [⟨some 5, 1⟩, ⟨none, 2⟩] [⟨some 7, 3⟩]).shopify.orderCount = 2 ∧
      (salesSummary [⟨some 5, 1⟩, ⟨none, 2⟩] [⟨some 7, 3⟩]).spy.orderCount = 1 ∧
      (salesSummary [⟨some 5, 1⟩, ⟨none, 2⟩] [⟨some 7, 3⟩]).combined.orderCount =
        (salesSummary [⟨some 5, 1⟩, ⟨none, 2⟩] [⟨some 7, 3⟩]).shopify.orderCount +
          (salesSummary [⟨some 5, 1⟩, ⟨none, 2⟩] [⟨some 7, 3⟩]).spy.orderCount) :=
  ⟨⟨by decide, by decide, by decide⟩,
    by
      have h := salesSummary_boundary_and_totals Period.week ⟨20000, 3600000, 15⟩
        [⟨some 5, 1⟩, ⟨none, 2⟩] [⟨some 7, 3⟩] (by decide) (by decide) (by decide)
      simpa [salesSummary, reduceTotal] using h⟩

/-- Claim C2: every product record built by the inventory ranking handler
and by the assistant getInventory function carries
`is_low_stock = true` exactly when its stock level is strictly below its
minimum-stock threshold; in particular a stock level equal to the
threshold is not flagged. -/
theorem inventory_low_stock_iff (rows : List Snapshot) (lso : Bool) :
    (∀ item ∈ (inventoryResponse rows).items,
      (item.is_low_stock = true ↔ item.stock_level < item.min_stock)) ∧
    (∀ item ∈ getInventory lso rows,
      (item.is_low_stock = true ↔ item.stock_level < item.min_stock)) ∧
    (∀ item ∈ (inventoryResponse rows).items,
      item.stock_level = item.min_stock → item.is_low_stock = false) ∧
    (∀ item ∈ getInventory lso rows,
      item.stock_level = item.min_stock → item.is_low_stock = false) := by
  have key : ∀ (item : InvItem), (∃ s ∈ rows, item = mkItem s) →
      (item.is_low_stock = true ↔ item.stock_level < item.min_stock) := by
    rintro item ⟨s, _, rfl⟩
    exact mkItem_low_iff s
  have keyB : ∀ (item : InvItem), (∃ s ∈ rows, item = mkItem s) →
      item.stock_level = item.min_stock → item.is_low_stock = false := by
    rintro item hmem heq
    rcases Bool.eq_false_or_eq_true item.is_low_stock with h | h
    · exact absurd ((key item hmem).mp h) (by omega)
    · exact h
  exact ⟨fun item h => key item (mem_inventoryResponse_items h),
    fun item h => key item (mem_getInventory h),
    fun item h => keyB item (mem_inventoryResponse_items h),
    fun item h => keyB item (mem_getInventory h)⟩

/-- Witness for C2 at a concrete snapshot with stock equal to the
threshold: the item is produced and not flagged. -/
theorem inventory_low_stock_iff_witness :
    mkItem ⟨1, "SKU-1", "Apple", 5, 5, 100⟩ ∈
        getInventory false [⟨1, "SKU-1", "Apple", 5, 5, 100⟩] ∧
    (mkItem ⟨1, "SKU-1", "Apple", 5, 5, 100⟩).stock_level =
        (mkItem ⟨1, "SKU-1", "Apple", 5, 5, 100⟩).min_stock ∧
    (mkItem ⟨1, "SKU-1", "Apple", 5, 5, 100⟩).is_low_stock = false :=
  ⟨by decide, by decide,
    (inventory_low_stock_iff [⟨1, "SKU-1", "Apple", 5, 5, 100⟩] false).2.2.2
      (mkItem ⟨1, "SKU-1", "Apple", 5, 5, 100⟩) (by decide) (by decide)⟩

/-- Claim C10: in the inventory ranking response `total_items` is the
length of the returned items array and `low_stock_count` counts low-stock
items among the returned (truncated) items only; both are at most 20
whatever the input. -/
theorem inventoryResponse_counts_truncated (rows : List Snapshot) :
    (inventoryResponse rows).total_items = (inventoryResponse rows).items.length ∧
    (inventoryResponse rows).low_stock_count =
      ((inventoryResponse rows).items.filter (fun i => i.is_low_stock)).length ∧
    (inventoryResponse rows).low_stock_count ≤ (inventoryResponse rows).total_items ∧
    (inventoryResponse rows).total_items ≤ 20 ∧
    (inventoryResponse rows).low_stock_count ≤ 20 := by
  have hlen : (inventoryTop20 rows).length ≤ 20 := by
    unfold inventoryTop20
    exact List.length_take_le 20 _
  have hfil : ((inventoryTop20 rows).filter (fun i => i.is_low_stock)).length ≤
      (inventoryTop20 rows).length := List.length_filter_le _ _
  refine ⟨rfl, rfl, ?_, ?_, ?_⟩
  · simpa [inventoryResponse] using hfil
  · simpa [inventoryResponse] using hlen
  · simpa [inventoryResponse] using le_trans hfil hlen

theorem head_filter_latest {rows : List Snapshot} {pid : Int} {s s0 : Snapshot}
    (hdesc : rows.Pairwise (fun a b => b.taken_at ≤ a.taken_at))
    (hh : (rows.filter (fun t => decide (t.product_id = pid))).head? = some s0)
    (hs : s ∈ rows) (hpid : s.product_id = pid) :
    s.taken_at ≤ s0.taken_at := by
  have hsf : s ∈ rows.filter (fun t => decide (t.product_id = pid)) :=
    List.mem_filter.mpr ⟨hs, by simp [hpid]⟩
  have hpf : (rows.filter (fun t => decide (t.product_id = pid))).Pairwise
      (fun a b => b.taken_at ≤ a.taken_at) :=
    hdesc.sublist (List.filter_sublist _)
  cases hfl : rows.filter (fun t => decide (t.product_id = pid)) with
  | nil => rw [hfl] at hh; simp at hh
  | cons a tail =>
      rw [hfl] at hh hsf hpf
      simp only [List.head?_cons, Option.some.injEq] at hh
      subst hh
      rcases List.mem_cons.mp hsf with rfl | hmem
      · exact le_refl _
      · exact (List.pairwise_cons.mp hpf).1 s hmem

/-- Claim C7: the inventory ranking keeps for each product id exactly the
record of the first row encountered (filtering its grouped output by a
product id yields the head of the correspondingly filtered input); when
the input arrives ordered newest-first, every returned item therefore
carries a `taken_at` at least as new as every input row of the same
product; the final list is sorted ascending by stock level and holds at
most 20 items. -/
theorem inventoryTop20_first_wins_sorted_truncated (rows : List Snapshot)
    (hdesc : rows.Pairwise (fun a b => b.taken_at ≤ a.taken_at)) :
    (∀ pid : Int,
      (groupLatest [] rows).filter (fun i => decide (i.product_id = pid)) =
        (((rows.filter (fun s => decide (s.product_id = pid))).head?).map mkItem).toList) ∧
    (inventoryTop20 rows).Pairwise stockLE ∧
    (inventoryTop20 rows).length ≤ 20 ∧
    (∀ item ∈ inventoryTop20 rows, ∀ s ∈ rows,
      s.product_id = item.product_id → s.taken_at ≤ item.last_updated) := by
  have hgrp : ∀ pid : Int,
      (groupLatest [] rows).filter (fun i => decide (i.product_id = pid)) =
        (((rows.filter (fun s => decide (s.product_id = pid))).head?).map mkItem).toList := by
    intro pid
    simpa using groupLatest_filter rows [] pid
  refine ⟨hgrp, ?_, ?_, ?_⟩
  · exact (List.sorted_insertionSort stockLE _).sublist (List.take_sublist _ _)
  · exact List.length_take_le _ _
  · intro item hmem s hs hpid
    have h1 : item ∈ groupLatest ([] : List Int) rows :=
      (List.perm_insertionSort stockLE _).mem_iff.mp (List.mem_of_mem_take hmem)
    have h2 : item ∈ (groupLatest ([] : List Int) rows).filter
        (fun i => decide (i.product_id = item.product_id)) :=
      List.mem_filter.mpr ⟨h1, by simp⟩
    rw [hgrp item.product_id] at h2
    cases hh : (rows.filter (fun t => decide (t.product_id = item.product_id))).head? with
    | none => rw [hh] at h2; simp at h2
    | some s0 =>
        rw [hh] at h2
        simp at h2
        have hle := head_filter_latest hdesc hh hs hpid
        rw [h2]
        simpa [mkItem] using hle

/-- Witness for C7 at a concrete newest-first row list with a duplicated
product id. -/
theorem inventoryTop20_first_wins_sorted_truncated_witness :
    ([⟨1, "A", "a", 5, 3, 200⟩, ⟨2, "B", "b", 2, 4, 150⟩,
        ⟨1, "A", "a", 9, 3, 100⟩] : List Snapshot).Pairwise
        (fun a b => b.taken_at ≤ a.taken_at) ∧
    ((∀ pid : Int,
      (groupLatest [] [⟨1, "A", "a", 5, 3, 200⟩, ⟨2, "B", "b", 2, 4, 150⟩,
          ⟨1, "A", "a", 9, 3, 100⟩]).filter (fun i => decide (i.product_id = pid)) =
        ((([⟨1, "A", "a", 5, 3, 200⟩, ⟨2, "B", "b", 2, 4, 150⟩,
            ⟨1, "A", "a", 9, 3, 100⟩] : List Snapshot).filter
              (fun s => decide (s.product_id = pid))).head?.map mkItem).toList) ∧
      (inventoryTop20 [⟨1, "A", "a", 5, 3, 200⟩, ⟨2, "B", "b", 2, 4, 150⟩,
          ⟨1, "A", "a", 9, 3, 100⟩]).Pairwise stockLE ∧
      (inventoryTop20 [⟨1, "A", "a", 5, 3, 200⟩, ⟨2, "B", "b", 2, 4, 150⟩,
          ⟨1, "A", "a", 9, 3, 100⟩]).length ≤ 20 ∧
      (∀ item ∈ inventoryTop20 [⟨1, "A", "a", 5, 3, 200⟩, ⟨2, "B", "b", 2, 4, 150⟩,
          ⟨1, "A", "a", 9, 3, 100⟩],
        ∀ s ∈ ([⟨1, "A", "a", 5, 3, 200⟩, ⟨2, "B", "b", 2, 4, 150⟩,
            ⟨1, "A", "a", 9, 3, 100⟩] : List Snapshot),
          s.product_id = item.product_id → s.taken_at ≤ item.last_updated)) :=
  ⟨by decide,
    inventoryTop20_first_wins_sorted_truncated
      [⟨1, "A", "a", 5, 3, 200⟩, ⟨2, "B", "b", 2, 4, 150⟩, ⟨1, "A", "a", 9, 3, 100⟩]
      (by decide)⟩

/-! ### Upsert lemmas -/

theorem upsertOrder_pairwise {table : List ShopifyOrderRow} {r : ShopifyOrderRow}
    (h : table.Pairwise (fun a b => a.id ≠ b.id)) :
    (upsertOrder table r).Pairwise (fun a b => a.id ≠ b.id) := by
  unfold upsertOrder
  by_cases hany : table.any (fun x => decide (x.id = r.id))
  · rw [if_pos hany]
    have hid : ∀ x : ShopifyOrderRow, (if x.id = r.id then r else x).id = x.id := by
      intro x
      by_cases hx : x.id = r.id <;> simp [hx]
    rw [List.pairwise_map]
    exact h.imp (fun hab => by simpa only [hid] using hab)
  · rw [if_neg hany]
    rw [List.pairwise_append]
    refine ⟨h, List.pairwise_singleton _ _, ?_⟩
    intro a ha b hb
    rw [List.mem_singleton] at hb
    subst hb
    intro he
    exact hany (List.any_eq_true.mpr ⟨a, ha, by simp [he]⟩)

theorem filter_map_replace {r : ShopifyOrderRow} :
    ∀ (table : List ShopifyOrderRow),
      table.Pairwise (fun a b => a.id ≠ b.id) →
      ∀ x0 ∈ table, x0.id = r.id →
      (table.map (fun x => if x.id = r.id then r else x)).filter
        (fun x => decide (x.id = r.id)) = [r] := by
  intro table
  induction table with
  | nil => intro _ x0 hx0; simp at hx0
  | cons x rest ih =>
      intro hp x0 hx0 hx0id
      have hp' := List.pairwise_cons.mp hp
      by_cases hx : x.id = r.id
      · rw [List.map_cons, if_pos hx, List.filter_cons_of_pos (by simp)]
        have htail : ∀ y ∈ rest.map (fun t => if t.id = r.id then r else t),
            ¬ ((fun z : ShopifyOrderRow => decide (z.id = r.id)) y = true) := by
          intro y hy
          obtain ⟨z, hz, rfl⟩ := List.mem_map.mp hy
          have hxz : x.id ≠ z.id := hp'.1 z hz
          have hzr : ¬ z.id = r.id := fun hzr => hxz (hx.trans hzr.symm)
          simp [if_neg hzr, hzr]
        rw [List.filter_eq_nil_iff.mpr htail]
      · have hx0r : x0 ∈ rest := by
          rcases List.mem_cons.mp hx0 with rfl | hmem
          · exact absurd hx0id hx
          · exact hmem
        rw [List.map_cons, if_neg hx, List.filter_cons_of_neg (by simp [hx])]
        exact ih hp'.2 x0 hx0r hx0id

theorem upsertOrder_filter {table : List ShopifyOrderRow} {r : ShopifyOrderRow}
    (h : table.Pairwise (fun a b => a.id ≠ b.id)) :
    (upsertOrder table r).filter (fun x => decide (x.id = r.id)) = [r] := by
  unfold upsertOrder
  by_cases hany : table.any (fun x => decide (x.id = r.id))
  · rw [if_pos hany]
    obtain ⟨x0, hx0mem, hx0⟩ := List.any_eq_true.mp hany
    exact filter_map_replace table h x0 hx0mem (by simpa using hx0)
  · rw [if_neg hany, List.filter_append]
    have h1 : table.filter (fun x => decide (x.id = r.id)) = [] :=
      List.filter_eq_nil_iff.mpr (fun a ha hpa => hany (List.any_eq_true.mpr ⟨a, ha, hpa⟩))
    simp [h1]

/-- Claim C4: ingesting the same webhook payload twice (equal platform
order ids) through the order upsert leaves exactly one row keyed on that
id, whose fields are those built from the second payload; id-uniqueness
of the table is preserved. -/
theorem shopifyOrders_upsert_idempotent (table : List ShopifyOrderRow)
    (p1 p2 : OrderPayload)
    (huniq : table.Pairwise (fun a b => a.id ≠ b.id))
    (_hid : p1.id = p2.id) :
    (upsertOrder (upsertOrder table (rowOfPayload p1)) (rowOfPayload p2)).filter
        (fun x => decide (x.id = p2.id)) = [rowOfPayload p2] ∧
    ((upsertOrder (upsertOrder table (rowOfPayload p1)) (rowOfPayload p2)).filter
        (fun x => decide (x.id = p2.id))).length = 1 ∧
    (upsertOrder (upsertOrder table (rowOfPayload p1)) (rowOfPayload p2)).Pairwise
        (fun a b => a.id ≠ b.id) := by
  have h1 : (upsertOrder table (rowOfPayload p1)).Pairwise
      (fun a b => a.id ≠ b.id) := upsertOrder_pairwise huniq
  have h2 : (upsertOrder (upsertOrder table (rowOfPayload p1)) (rowOfPayload p2)).filter
      (fun x => decide (x.id = p2.id)) = [rowOfPayload p2] :=
    upsertOrder_filter (r := rowOfPayload p2) h1
  exact ⟨h2, by rw [h2]; rfl, upsertOrder_pairwise h1⟩

/-- Witness for C4: replaying a payload over a one-row table. -/
theorem shopifyOrders_upsert_idempotent_witness :
    ([⟨7, "t0", 1, "paid", none, ⟨7, "t0", some 1, some "paid", none, 40, "DKK"⟩⟩] :
        List ShopifyOrderRow).Pairwise (fun a b => a.id ≠ b.id) ∧
    (⟨9, "t1", some 10, none, none, 41, "DKK"⟩ : OrderPayload).id =
      (⟨9, "t2", some 20, some "fulfilled", some "a@b.c", 41, "DKK"⟩ : OrderPayload).id ∧
    (upsertOrder (upsertOrder
        [⟨7, "t0", 1, "paid", none, ⟨7, "t0", some 1, some "paid", none, 40, "DKK"⟩⟩]
        (rowOfPayload ⟨9, "t1", some 10, none, none, 41, "DKK"⟩))
        (rowOfPayload ⟨9, "t2", some 20, some "fulfilled", some "a@b.c", 41, "DKK"⟩)).filter
        (fun x => decide (x.id = (9 : Int))) =
      [rowOfPayload ⟨9, "t2", some 20, some "fulfilled", some "a@b.c", 41, "DKK"⟩] :=
  ⟨by decide, by decide,
    (shopifyOrders_upsert_idempotent
      [⟨7, "t0", 1, "paid", none, ⟨7, "t0", some 1, some "paid", none, 40, "DKK"⟩⟩]
      ⟨9, "t1", some 10, none, none, 41, "DKK"⟩
      ⟨9, "t2", some 20, some "fulfilled", some "a@b.c", 41, "DKK"⟩
      (by decide) (by decide)).1⟩

/-- Claim C5: a webhook request whose signature header is missing, or
whose digest over the raw body does not match the shared secret, is
rejected with a 401 and leaves the datastore untouched: no order row is
written and no notification is created. -/
theorem webhook_rejects_bad_signature (hmac : String → String → String)
    (parsePayload : String → Option OrderPayload)
    (webhookSecret : Option String) (req : WebhookReq) (st : WebhookState)
    (h : ∀ sec header, webhookSecret = some sec → req.hmacHeader = some header →
      hmac sec req.body ≠ header) :
    handleWebhook hmac parsePayload webhookSecret req st = ⟨401, st⟩ := by
  cases hsec : webhookSecret with
  | none => cases req.hmacHeader <;> simp [handleWebhook]
  | some sec =>
      cases hhd : req.hmacHeader with
      | none => simp [handleWebhook, hhd]
      | some header =>
          have hne := h sec header hsec hhd
          simp only [handleWebhook, hhd]
          by_cases hempty : sec = "" ∨ header = ""
          · rw [if_pos hempty]
          · rw [if_neg hempty, if_pos hne]

/-- Witness for C5: a concrete tampered signature is rejected and the
concrete store is returned unchanged. -/
theorem webhook_rejects_bad_signature_witness :
    ("k" ++ "body" ≠ "bad") ∧
    handleWebhook (fun s b => s ++ b) (fun _ => none) (some "k")
        ⟨"body", some "bad", some "orders/create"⟩
        ⟨[], [⟨"t", "b", "info"⟩]⟩ =
      ⟨401, ⟨[], [⟨"t", "b", "info"⟩]⟩⟩ :=
  ⟨by decide,
    webhook_rejects_bad_signature (fun s b => s ++ b) (fun _ => none) (some "k")
      ⟨"body", some "bad", some "orders/create"⟩ ⟨[], [⟨"t", "b", "info"⟩]⟩
      (by
        intro sec header hs hh
        rw [Option.some.injEq] at hs hh
        subst hs
        subst hh
        decide)⟩

/-! ### Sync loop lemmas -/

theorem runOrdersSync_go (outcome : SpyOrder → Option String) :
    ∀ (orders : List SpyOrder) (t : SyncTally),
      orders.foldl (syncStep outcome) t =
        { syncedCount := t.syncedCount + (orders.filter (fun o => (outcome o).isNone)).length
          errorCount := t.errorCount + (orders.filter (fun o => (outcome o).isSome)).length
          errors := t.errors ++ orders.filterMap
            (fun o => (outcome o).map
              (fun msg => "Order " ++ o.order_number ++ ": " ++ msg)) } := by
  intro orders
  induction orders with
  | nil => intro t; simp
  | cons o rest ih =>
      intro t
      cases ho : outcome o with
      | none =>
          simp [List.foldl_cons, syncStep, ho, ih, List.filter_cons,
            List.filterMap_cons, Nat.add_assoc, Nat.add_comm, Nat.add_left_comm]
      | some msg =>
          simp [List.foldl_cons, syncStep, ho, ih, List.filter_cons,
            List.filterMap_cons, Nat.add_assoc, Nat.add_comm, Nat.add_left_comm]

theorem filter_none_some_length (outcome : SpyOrder → Option String) :
    ∀ orders : List SpyOrder,
      (orders.filter (fun o => (outcome o).isNone)).length +
        (orders.filter (fun o => (outcome o).isSome)).length = orders.length := by
  intro orders
  induction orders with
  | nil => rfl
  | cons o rest ih =>
      cases ho : outcome o <;> simp [List.filter_cons, ho] <;> omega

/-- Claim C6: per-record upsert failures do not abort an orders sync run:
with n fetched records of which k fail, the tally reports
synced_count = n - k and error_count = k, the response carries at most 10
error entries, and the summary notification is of type warning exactly
when errors occurred and success otherwise; in the concrete 3-record run
where only the 2nd record fails, synced_count = 2, error_count = 1 and a
warning notification is created. -/
theorem ordersSync_partial_failures (outcome : SpyOrder → Option String)
    (orders : List SpyOrder) :
    (runOrdersSync outcome orders).syncedCount =
      orders.length - (orders.filter (fun o => (outcome o).isSome)).length ∧
    (runOrdersSync outcome orders).errorCount =
      (orders.filter (fun o => (outcome o).isSome)).length ∧
    (ordersSyncResponse (runOrdersSync outcome orders)).synced_count =
      (runOrdersSync outcome orders).syncedCount ∧
    (ordersSyncResponse (runOrdersSync outcome orders)).error_count =
      (runOrdersSync outcome orders).errorCount ∧
    (ordersSyncResponse (runOrdersSync outcome orders)).errors.length ≤ 10 ∧
    (0 < (runOrdersSync outcome orders).errorCount →
      syncNotificationType (runOrdersSync outcome orders) = "warning") ∧
    ((runOrdersSync outcome orders).errorCount = 0 →
      syncNotificationType (runOrdersSync outcome orders) = "success") ∧
    (runOrdersSync failSecondOutcome threeOrders).syncedCount = 2 ∧
    (runOrdersSync failSecondOutcome threeOrders).errorCount = 1 ∧
    syncNotificationType (runOrdersSync failSecondOutcome threeOrders) = "warning" := by
  have hgo := runOrdersSync_go outcome orders ⟨0, 0, []⟩
  have hcnt := filter_none_some_length outcome orders
  unfold runOrdersSync at *
  rw [hgo]
  refine ⟨by simp; omega, by simp, rfl, rfl, ?_, ?_, ?_, by decide, by decide, by decide⟩
  · simp [ordersSyncResponse]
  · intro hpos
    simp only [syncNotificationType, if_pos hpos]
  · intro hzero
    simp only [syncNotificationType] at *
    rw [if_neg (by omega)]

/-- Witness for C6 exercising the warning implication at the concrete
3-record scenario. -/
theorem ordersSync_partial_failures_witness :
    0 < (runOrdersSync failSecondOutcome threeOrders).errorCount ∧
    syncNotificationType (runOrdersSync failSecondOutcome threeOrders) = "warning" :=
  ⟨by decide,
    (ordersSync_partial_failures failSecondOutcome threeOrders).2.2.2.2.2.1 (by decide)⟩

/-! ### Assistant orchestration claims -/

/-- Claim C8: a request to the assistant endpoint whose body lacks a
non-empty query string is rejected with a 400 error and triggers no model
call and no local data-retrieval function (hence no datastore read). -/
theorem aiAsk_rejects_empty_query (parseArgs : String → Option String)
    (runFn : LocalFn → String → String) (firstMsg : ModelMsg)
    (secondAnswer : Option String) (query : Option String)
    (h : queryFalsy query = true) :
    handleAsk parseArgs runFn firstMsg secondAnswer query =
      { status := 400, answer := none, citations := [], executedFns := [],
        llmCalls := 0 } := by
  unfold handleAsk
  rw [if_pos h]

/-- Witness for C8 at a missing query field. -/
theorem aiAsk_rejects_empty_query_witness :
    queryFalsy none = true ∧
    handleAsk (fun s => some s) (fun _ a => a) (ModelMsg.plain none) none none =
      { status := 400, answer := none, citations := [], executedFns := [],
        llmCalls := 0 } :=
  ⟨by decide,
    aiAsk_rejects_empty_query (fun s => some s) (fun _ a => a)
      (ModelMsg.plain none) none none (by decide)⟩

/-- Claim C9: when the first model response elects a function call whose
name is not locally dispatchable and whose arguments parse, no local
data-retrieval function runs, yet the handler still answers 200 with a
single citation whose source is the unrecognized name and whose data is
absent. -/
theorem aiAsk_unknown_function_citation (parseArgs : String → Option String)
    (runFn : LocalFn → String → String) (name args a : String)
    (secondAnswer : Option String) (query : Option String)
    (hq : queryFalsy query = false)
    (hp : parseArgs args = some a)
    (hd : dispatchName name = none) :
    handleAsk parseArgs runFn (ModelMsg.fnCall name args) secondAnswer query =
      { status := 200, answer := secondAnswer
        citations := [{ source := name, data := none }]
        executedFns := [], llmCalls := 2 } := by
  unfold handleAsk
  rw [if_neg (by simp [hq])]
  simp [hp, hd]

/-- Witness for C9 with the unrecognized name getWeather. -/
theorem aiAsk_unknown_function_citation_witness :
    queryFalsy (some "hello") = false ∧
    (fun s => (some s : Option String)) "a1" = some "a1" ∧
    dispatchName "getWeather" = none ∧
    handleAsk (fun s => some s) (fun _ a => a) (ModelMsg.fnCall "getWeather" "a1")
        (some "ans") (some "hello") =
      { status := 200, answer := some "ans"
        citations := [{ source := "getWeather", data := none }]
        executedFns := [], llmCalls := 2 } :=
  ⟨by simp [queryFalsy], rfl, by simp [dispatchName],
    aiAsk_unknown_function_citation (fun s => some s) (fun _ a => a)
      "getWeather" "a1" "a1" (some "ans") (some "hello")
      (by simp [queryFalsy]) rfl (by simp [dispatchName])⟩

/-! ### Token expiry claims -/

theorem mapGet_map_expiry (f : Secret → Option Int) (k : String)
    (secrets : List Secret) :
    mapGet (secrets.map (fun s => ⟨s.key, s.value, f s⟩)) k = mapGet secrets k := by
  unfold mapGet
  rw [List.filter_map]
  have hpred : ((fun s : Secret => decide (s.key = k)) ∘
      (fun s : Secret => (⟨s.key, s.value, f s⟩ : Secret))) =
      (fun s : Secret => decide (s.key = k)) := by
    funext s
    rfl
  rw [hpred, List.getLast?_map, Option.map_map]
  rfl

/-- Claim C1 fails at a concrete state: with `SPY_TOKEN` stored with
`expires_at = 100` and invocation time 200 (strictly past expiry), the
admin dispatcher test_connection sub-operation still reaches the
third-party API call, while the sync handlers with the same state fail
closed; so not every consumer of the token treats an expired credential
as absent. -/
theorem testConnection_expired_token_cex :
    findSecret expiredSecrets "SPY_TOKEN" = some ⟨"SPY_TOKEN", "tok", some 100⟩ ∧
    (100 : Int) < 200 ∧
    testConnectionCallsApi expiredSecrets = true ∧
    spySyncCallsApi expiredSecrets 200 = false := by
  refine ⟨by decide, by decide, by decide, by decide⟩

/-- Claim C1 (amended): the orders sync and the inventory sync fail
closed on an expired token: when the stored `SPY_TOKEN` row carries an
`expires_at` strictly before the invocation time, the run ends in a 400
client-error response before any third-party call, exactly as for a
missing credential.  The test_connection sub-operation of the admin
dispatcher, by contrast, never reads `expires_at`: whether it calls the
API is invariant under arbitrary changes of every stored expiry. -/
theorem spySync_fails_closed_on_expiry (secrets : List Secret) (now : Int)
    (ts : Secret) (e : Int)
    (hfind : findSecret secrets "SPY_TOKEN" = some ts)
    (hexp : ts.expires_at = some e) (hlt : e < now) :
    spySyncEarlyStatus secrets now = some 400 ∧
    spySyncCallsApi secrets now = false ∧
    (∀ f : Secret → Option Int,
      testConnectionCallsApi (secrets.map (fun s => ⟨s.key, s.value, f s⟩)) =
        testConnectionCallsApi secrets) := by
  have hgate : spySyncGate secrets now = SyncGate.missingCreds ∨
      spySyncGate secrets now = SyncGate.expired := by
    unfold spySyncGate
    cases h1 : mapGet secrets "SPY_TOKEN" with
    | none => left; rfl
    | some token =>
        cases h2 : mapGet secrets "SPY_API_URL" with
        | none => left; rfl
        | some apiUrl =>
            by_cases hempty : token = "" ∨ apiUrl = ""
            · left; simp [hempty]
            · right; simp [hempty, hfind, hexp, hlt]
  refine ⟨?_, ?_, ?_⟩
  · rcases hgate with hg | hg <;> simp [spySyncEarlyStatus, hg]
  · rcases hgate with hg | hg <;> simp [spySyncCallsApi, hg]
  · intro f
    unfold testConnectionCallsApi testConnectionGate
    rw [mapGet_map_expiry, mapGet_map_expiry]

/-- Witness for the amended C1 at the concrete expired state, with the
expiry-invariance part instantiated at the map erasing every expiry. -/
theorem spySync_fails_closed_on_expiry_witness :
    (findSecret expiredSecrets "SPY_TOKEN" = some ⟨"SPY_TOKEN", "tok", some 100⟩ ∧
      (⟨"SPY_TOKEN", "tok", some 100⟩ : Secret).expires_at = some 100 ∧
      (100 : Int) < 200) ∧
    spySyncEarlyStatus expiredSecrets 200 = some 400 ∧
    spySyncCallsApi expiredSecrets 200 = false ∧
    testConnectionCallsApi (expiredSecrets.map
        (fun s => ⟨s.key, s.value, (fun _ => (none : Option Int)) s⟩)) =
      testConnectionCallsApi expiredSecrets :=
  ⟨⟨by decide, rfl, by decide⟩,
    (spySync_fails_closed_on_expiry expiredSecrets 200
      ⟨"SPY_TOKEN", "tok", some 100⟩ 100 (by decide) rfl (by decide)).1,
    (spySync_fails_closed_on_expiry expiredSecrets 200
      ⟨"SPY_TOKEN", "tok", some 100⟩ 100 (by decide) rfl (by decide)).2.1,
    (spySync_fails_closed_on_expiry expiredSecrets 200
      ⟨"SPY_TOKEN", "tok", some 100⟩ 100 (by decide) rfl (by decide)).2.2
      (fun _ => none)⟩

end LuxHub
